import Mathlib

/-!
Shallow embedding of the FT6X36 capacitive-touch driver
(src/components/lvgl_esp32_drivers/lvgl_touch/ft6x36.c).

The driver keeps three pieces of process-wide state: an `inited` flag,
the stored device address (a uint8), and the last observed touch sample
`touch_inputs`.  The sampler `ft6x36_read` consumes one 5-byte bus read
per call; the bus outcome is modelled as a success flag `busOk` plus the
contents of the local `data_buf` after the call (on failure the buffer
may hold arbitrary bytes, exactly as the uninitialized C local would).
Channel publishes (`xQueueSend` / `xQueueOverwrite`) are collected into
an explicit list; logging is not modelled.
-/

/-- LVGL input-device state: `LV_INDEV_STATE_REL` / `LV_INDEV_STATE_PR`. -/
inductive LvIndevState where
  | rel : LvIndevState
  | pr : LvIndevState
deriving DecidableEq, Repr

/-- The `ft6x36_touch_t` record: last coordinates and current state. -/
structure Ft6x36Touch where
  last_x : Int
  last_y : Int
  current_state : LvIndevState
deriving DecidableEq, Repr

/-- The `ft6x36_status_t` record (only the `inited` flag is used). -/
structure Ft6x36Status where
  inited : Bool
deriving DecidableEq, Repr

/-- The driver's process-wide mutable state, gathered into one record:
`ft6x36_status`, `current_dev_addr` (uint8) and `touch_inputs`. -/
structure DriverState where
  ft6x36_status : Ft6x36Status
  current_dev_addr : Nat
  touch_inputs : Ft6x36Touch
deriving DecidableEq, Repr

/-- Static initial value of `touch_inputs`:
`{ -1, -1, LV_INDEV_STATE_REL }` (never touched). -/
def initialTouchInputs : Ft6x36Touch :=
  { last_x := -1, last_y := -1, current_state := LvIndevState.rel }

/-- The `lv_indev_data_t` fields the driver writes: `point.x`, `point.y`,
`state`. -/
structure LvIndevData where
  point_x : Int
  point_y : Int
  state : LvIndevState
deriving DecidableEq, Repr

/-- Modelled from the spec: the header `ft6x36.h` is not under src/; the
spec describes the X/Y encoding as a 4-bit high nibble, so the MSB mask
is 0x0F. -/
def FT6X36_MSB_MASK : Nat := 0x0F

/-- Modelled from the spec: the header `ft6x36.h` is not under src/; the
spec describes the X/Y encoding as an 8-bit low byte, so the LSB mask
is 0xFF. -/
def FT6X36_LSB_MASK : Nat := 0xFF

/-- Build-time configuration of the driver: the three orientation
switches (`CONFIG_LV_FT6X36_SWAPXY`, `..._INVERT_X`, `..._INVERT_Y`),
the display resolution (`LV_HOR_RES`, `LV_VER_RES`) and whether the
coordinates queue is compiled in (`CONFIG_LV_FT6X36_COORDINATES_QUEUE`). -/
structure Ft6x36Config where
  swap_xy : Bool
  invert_x : Bool
  invert_y : Bool
  hor_res : Int
  ver_res : Int
  queue_enabled : Bool
deriving DecidableEq, Repr

/-- The 5-byte local `data_buf` of `ft6x36_read` after the bus call:
byte 0 is the touch-point count, bytes 1-2 the X pair, bytes 3-4 the Y
pair. -/
structure Buf5 where
  b0 : Nat
  b1 : Nat
  b2 : Nat
  b3 : Nat
  b4 : Nat
deriving DecidableEq, Repr

/-- Result of one `ft6x36_read` call: the new driver state, the output
structure as written, the samples published to the queue during the
call, and the boolean return value. -/
structure ReadResult where
  state : DriverState
  data : LvIndevData
  published : List Ft6x36Touch
  ret : Bool
deriving DecidableEq, Repr

/-- `ft6x36_read` (ft6x36.c lines 108-160).  `busOk` is whether the
5-byte `lvgl_i2c_read` returned `ESP_OK`; `buf` is the content of the
local `data_buf` after that call (garbage bytes on failure); `data` is
the caller's output structure before the call. -/
def ft6x36_read (cfg : Ft6x36Config) (s : DriverState) (busOk : Bool)
    (buf : Buf5) (data : LvIndevData) : ReadResult :=
  if s.ft6x36_status.inited = false then
    { state := s, data := data, published := [], ret := false }
  else
    if busOk = false ∨ buf.b0 ≠ 1 then
      -- ignore no touch & multi touch (and bus errors)
      if s.touch_inputs.current_state ≠ LvIndevState.rel then
        let ti := { s.touch_inputs with current_state := LvIndevState.rel }
        { state := { s with touch_inputs := ti },
          data := { point_x := ti.last_x, point_y := ti.last_y,
                    state := ti.current_state },
          published := if cfg.queue_enabled then [ti] else [],
          ret := false }
      else
        { state := s,
          data := { point_x := s.touch_inputs.last_x,
                    point_y := s.touch_inputs.last_y,
                    state := s.touch_inputs.current_state },
          published := [], ret := false }
    else
      let x0 : Int :=
        Int.ofNat (((buf.b1.land FT6X36_MSB_MASK) <<< 8) |||
          (buf.b2.land FT6X36_LSB_MASK))
      let y0 : Int :=
        Int.ofNat (((buf.b3.land FT6X36_MSB_MASK) <<< 8) |||
          (buf.b4.land FT6X36_LSB_MASK))
      let x1 : Int := if cfg.swap_xy then y0 else x0
      let y1 : Int := if cfg.swap_xy then x0 else y0
      let x2 : Int := if cfg.invert_x then cfg.hor_res - x1 else x1
      let y2 : Int := if cfg.invert_y then cfg.ver_res - y1 else y1
      let ti : Ft6x36Touch :=
        { last_x := x2, last_y := y2, current_state := LvIndevState.pr }
      { state := { s with touch_inputs := ti },
        data := { point_x := x2, point_y := y2, state := LvIndevState.pr },
        published := if cfg.queue_enabled then [ti] else [],
        ret := false }

/-- `ft6x36_get_gesture_id` (ft6x36.c lines 50-60).  `busOk` is whether
the single-byte register read returned `ESP_OK`; `bufAfter` is the
content of the local `data_buf` after that read (the C local is
uninitialized, so on failure it holds an arbitrary byte).  The source
returns `data_buf` on both paths. -/
def ft6x36_get_gesture_id (s : DriverState) (busOk : Bool)
    (bufAfter : Nat) : Nat :=
  if s.ft6x36_status.inited = false then 0 else bufAfter

/-- Result of `ft6x06_init`: the new driver state and the samples sent
to the freshly created queue. -/
structure InitResult where
  state : DriverState
  published : List Ft6x36Touch
deriving DecidableEq, Repr

/-- `ft6x06_init` (ft6x36.c lines 67-100).  `dev_addr` is the uint16
argument; the store into the uint8 `current_dev_addr` truncates.  The
five diagnostic register reads write only a local and the log, so their
outcomes `diag` do not enter the result.  With the queue feature
enabled and allocation succeeding, the current `touch_inputs` value is
sent to the queue. -/
def ft6x06_init (s : DriverState) (dev_addr : Nat) (diag : List Bool)
    (queue_enabled : Bool) (allocOk : Bool) : InitResult :=
  let s1 : DriverState :=
    { s with ft6x36_status := { inited := true },
             current_dev_addr := dev_addr % 256 }
  if queue_enabled then
    if allocOk then
      { state := s1, published := [s1.touch_inputs] }
    else
      { state := s1, published := [] }
  else
    { state := s1, published := [] }

/-- A fixed output structure used where the caller's structure does not
matter (the sampler's state change and publishes never depend on it). -/
def dummyData : LvIndevData :=
  { point_x := 0, point_y := 0, state := LvIndevState.rel }

/-- Run a sequence of polls through `ft6x36_read`, threading the driver
state and concatenating the publishes; each poll is a pair of the bus
success flag and the buffer contents. -/
def runPolls (cfg : Ft6x36Config) (s : DriverState)
    (polls : List (Bool × Buf5)) : DriverState × List Ft6x36Touch :=
  match polls with
  | [] => (s, [])
  | p :: rest =>
    let r := ft6x36_read cfg s p.1 p.2 dummyData
    let rec' := runPolls cfg r.state rest
    (rec'.1, r.published ++ rec'.2)

-- Shared concrete values used in witnesses and counterexamples.

/-- A configuration with all transforms off and the queue enabled. -/
def cfg0 : Ft6x36Config :=
  { swap_xy := false, invert_x := false, invert_y := false,
    hor_res := 320, ver_res := 240, queue_enabled := true }

/-- An uninitialized driver state. -/
def s_uninit : DriverState :=
  { ft6x36_status := { inited := false }, current_dev_addr := 0,
    touch_inputs := initialTouchInputs }

/-- An initialized driver state in the released, never-touched
condition. -/
def s_rel : DriverState :=
  { ft6x36_status := { inited := true }, current_dev_addr := 0x38,
    touch_inputs := initialTouchInputs }

/-- An initialized driver state mid-press at coordinates (100, 100). -/
def s_pr : DriverState :=
  { ft6x36_status := { inited := true }, current_dev_addr := 0x38,
    touch_inputs :=
      { last_x := 100, last_y := 100, current_state := LvIndevState.pr } }

/-- The spec's transform-order test configuration: swap on, invert X
on, invert Y off, 320x240 display. -/
def cfg3 : Ft6x36Config :=
  { swap_xy := true, invert_x := true, invert_y := false,
    hor_res := 320, ver_res := 240, queue_enabled := true }

/-- A pre-filled output structure used to observe whether a call writes
the output structure at all. -/
def d_probe : LvIndevData :=
  { point_x := 7, point_y := 8, state := LvIndevState.pr }

/-- The swap-X/Y orientation transform as the spec words it, acting on
a coordinate pair. -/
def swapT (cfg : Ft6x36Config) (p : Int × Int) : Int × Int :=
  if cfg.swap_xy then (p.2, p.1) else p

/-- The invert-X orientation transform as the spec words it:
`horizontal_resolution - X`. -/
def invertXT (cfg : Ft6x36Config) (p : Int × Int) : Int × Int :=
  if cfg.invert_x then (cfg.hor_res - p.1, p.2) else p

/-- The invert-Y orientation transform as the spec words it:
`vertical_resolution - Y`. -/
def invertYT (cfg : Ft6x36Config) (p : Int × Int) : Int × Int :=
  if cfg.invert_y then (p.1, cfg.ver_res - p.2) else p

-- Helper lemmas shared across the claim theorems.

/-- `ft6x36_read` never changes the status record (the `inited` flag). -/
theorem read_status_eq (cfg : Ft6x36Config) (s : DriverState) (busOk : Bool)
    (buf : Buf5) (data : LvIndevData) :
    (ft6x36_read cfg s busOk buf data).state.ft6x36_status =
      s.ft6x36_status := by
  by_cases h1 : s.ft6x36_status.inited = false
  · simp [ft6x36_read, h1]
  · by_cases h2 : busOk = false ∨ buf.b0 ≠ 1
    · by_cases h3 : s.touch_inputs.current_state = LvIndevState.rel <;>
        simp [ft6x36_read, h1, h2, h3]
    · simp [ft6x36_read, h1, h2]

/-- From the released state, an errored/ignored poll (bus failure, no
touch, or multi touch) is a complete no-op apart from the output
structure, which receives the sticky coordinates and Released state. -/
theorem read_error_from_rel (cfg : Ft6x36Config) (s : DriverState)
    (busOk : Bool) (buf : Buf5) (data : LvIndevData)
    (h : s.ft6x36_status.inited = true)
    (hrel : s.touch_inputs.current_state = LvIndevState.rel)
    (he : busOk = false ∨ buf.b0 ≠ 1) :
    ft6x36_read cfg s busOk buf data =
      { state := s,
        data := { point_x := s.touch_inputs.last_x,
                  point_y := s.touch_inputs.last_y,
                  state := LvIndevState.rel },
        published := [], ret := false } := by
  rcases he with he | he <;> simp [ft6x36_read, h, hrel, he]

/-- From the pressed state, an errored/ignored poll flips the state to
Released, keeps the coordinates, and publishes the Released sample when
the queue is enabled. -/
theorem read_error_from_pr (cfg : Ft6x36Config) (s : DriverState)
    (busOk : Bool) (buf : Buf5) (data : LvIndevData)
    (h : s.ft6x36_status.inited = true)
    (hpr : s.touch_inputs.current_state = LvIndevState.pr)
    (he : busOk = false ∨ buf.b0 ≠ 1) :
    ft6x36_read cfg s busOk buf data =
      { state := { s with touch_inputs :=
          { s.touch_inputs with current_state := LvIndevState.rel } },
        data := { point_x := s.touch_inputs.last_x,
                  point_y := s.touch_inputs.last_y,
                  state := LvIndevState.rel },
        published :=
          if cfg.queue_enabled then
            [{ s.touch_inputs with current_state := LvIndevState.rel }]
          else [],
        ret := false } := by
  rcases he with he | he <;> simp [ft6x36_read, h, hpr, he]

/-- A successful single-touch poll stores the Pressed state and, with
the queue enabled, publishes exactly the freshly stored sample. -/
theorem read_pressed_publish (cfg : Ft6x36Config) (s : DriverState)
    (buf : Buf5) (data : LvIndevData)
    (h : s.ft6x36_status.inited = true) (hcnt : buf.b0 = 1) :
    (ft6x36_read cfg s true buf data).published =
      (if cfg.queue_enabled then
        [(ft6x36_read cfg s true buf data).state.touch_inputs] else []) ∧
    (ft6x36_read cfg s true buf data).state.touch_inputs.current_state =
      LvIndevState.pr := by
  simp [ft6x36_read, h, hcnt]

/-- A run of errored/ignored polls starting in the released state
changes nothing and publishes nothing. -/
theorem runPolls_error_noop (cfg : Ft6x36Config) (s : DriverState)
    (polls : List (Bool × Buf5))
    (h : s.ft6x36_status.inited = true)
    (hrel : s.touch_inputs.current_state = LvIndevState.rel)
    (hp : ∀ p ∈ polls, p.1 = false ∨ p.2.b0 ≠ 1) :
    runPolls cfg s polls = (s, []) := by
  induction polls with
  | nil => rfl
  | cons p rest ih =>
    have hp1 := hp p (List.mem_cons_self p rest)
    have hr := read_error_from_rel cfg s p.1 p.2 dummyData h hrel hp1
    have ih' := ih (fun q hq => hp q (List.mem_cons_of_mem p hq))
    simp [runPolls, hr, ih']

/-- A run of successful single-touch polls publishes once per poll when
the queue is enabled. -/
theorem runPolls_pressed_length (cfg : Ft6x36Config) (s : DriverState)
    (polls : List (Bool × Buf5))
    (hq : cfg.queue_enabled = true)
    (h : s.ft6x36_status.inited = true)
    (hp : ∀ p ∈ polls, p.1 = true ∧ p.2.b0 = 1) :
    (runPolls cfg s polls).2.length = polls.length := by
  induction polls generalizing s with
  | nil => rfl
  | cons p rest ih =>
    obtain ⟨hb, hc⟩ := hp p (List.mem_cons_self p rest)
    have hpub := read_pressed_publish cfg s p.2 dummyData h hc
    have h2 : (ft6x36_read cfg s p.1 p.2 dummyData).state.ft6x36_status.inited
        = true := by
      rw [read_status_eq]; exact h
    have ih' := ih (ft6x36_read cfg s p.1 p.2 dummyData).state h2
      (fun q hq => hp q (List.mem_cons_of_mem p hq))
    rw [hb] at ih'
    simp only [runPolls, List.length_cons]
    rw [hb]
    simp [hpub.1, hq, ih']

-- Claim theorems.

/-- C1 (amended): while the device is not initialized, neither accessor
consumes any bus result (the outcome is the same for every bus
outcome): `ft6x36_get_gesture_id` returns 0, and `ft6x36_read` returns
false leaving the driver state and the caller's output structure
completely unchanged — it does not write any sentinel sample into the
output structure. -/
theorem C1_uninit_accessors (cfg : Ft6x36Config) (s : DriverState)
    (h : s.ft6x36_status.inited = false) :
    (∀ busOk bufAfter, ft6x36_get_gesture_id s busOk bufAfter = 0) ∧
    (∀ busOk buf data, ft6x36_read cfg s busOk buf data =
      { state := s, data := data, published := [], ret := false }) := by
  refine ⟨fun busOk bufAfter => ?_, fun busOk buf data => ?_⟩ <;>
    simp [ft6x36_get_gesture_id, ft6x36_read, h]

/-- Witness for C1 at a concrete uninitialized state. -/
theorem C1_uninit_accessors_witness :
    s_uninit.ft6x36_status.inited = false ∧
    ft6x36_get_gesture_id s_uninit false 0xAB = 0 ∧
    ft6x36_read cfg0 s_uninit true ⟨1, 0, 1, 0, 2⟩ dummyData =
      { state := s_uninit, data := dummyData, published := [],
        ret := false } :=
  ⟨rfl,
   (C1_uninit_accessors cfg0 s_uninit rfl).1 false 0xAB,
   (C1_uninit_accessors cfg0 s_uninit rfl).2 true ⟨1, 0, 1, 0, 2⟩ dummyData⟩

/-- C1 as stated is false: on an uninitialized device `ft6x36_read`
leaves the output structure exactly as the caller passed it (here
(7, 8, Pressed)), instead of producing the Released (-1, -1) sentinel
sample the claim asserts. -/
theorem C1_claim_counterexample :
    (ft6x36_read cfg0 s_uninit true ⟨0, 0, 0, 0, 0⟩ d_probe).data =
      d_probe ∧
    (ft6x36_read cfg0 s_uninit true ⟨0, 0, 0, 0, 0⟩ d_probe).data ≠
      { point_x := -1, point_y := -1, state := LvIndevState.rel } := by
  decide

/-- C2: for every successful 5-byte read with status byte 1 and the
transforms disabled, the output X is
`((b1 & FT6X36_MSB_MASK) <<< 8) ||| (b2 & FT6X36_LSB_MASK)` and the
output Y is the same formula over bytes 3 and 4. -/
theorem C2_coordinate_decode (s : DriverState) (buf : Buf5)
    (data : LvIndevData) (h : s.ft6x36_status.inited = true)
    (hcnt : buf.b0 = 1) :
    (ft6x36_read cfg0 s true buf data).data.point_x =
      Int.ofNat (((buf.b1.land FT6X36_MSB_MASK) <<< 8) |||
        (buf.b2.land FT6X36_LSB_MASK)) ∧
    (ft6x36_read cfg0 s true buf data).data.point_y =
      Int.ofNat (((buf.b3.land FT6X36_MSB_MASK) <<< 8) |||
        (buf.b4.land FT6X36_LSB_MASK)) := by
  simp [ft6x36_read, h, hcnt, cfg0]

/-- Witness for C2: bytes X_hi = 0x03, X_lo = 0xFF decode to
X = 0x3FF. -/
theorem C2_coordinate_decode_witness :
    (⟨1, 0x03, 0xFF, 0, 20⟩ : Buf5).b0 = 1 ∧
    (ft6x36_read cfg0 s_rel true ⟨1, 0x03, 0xFF, 0, 20⟩
      dummyData).data.point_x = 0x3FF :=
  ⟨rfl,
   (C2_coordinate_decode s_rel ⟨1, 0x03, 0xFF, 0, 20⟩ dummyData rfl
      rfl).1.trans (by decide)⟩

/-- C3: on every valid single-touch poll, the final coordinates are the
decoded pair passed through swap X/Y, then invert X, then invert Y, in
that fixed order, so inversion acts on the post-swap axes. -/
theorem C3_transform_order (cfg : Ft6x36Config) (s : DriverState)
    (buf : Buf5) (data : LvIndevData)
    (h : s.ft6x36_status.inited = true) (hcnt : buf.b0 = 1) :
    ((ft6x36_read cfg s true buf data).data.point_x,
     (ft6x36_read cfg s true buf data).data.point_y) =
      invertYT cfg (invertXT cfg (swapT cfg
        (Int.ofNat (((buf.b1.land FT6X36_MSB_MASK) <<< 8) |||
           (buf.b2.land FT6X36_LSB_MASK)),
         Int.ofNat (((buf.b3.land FT6X36_MSB_MASK) <<< 8) |||
           (buf.b4.land FT6X36_LSB_MASK))))) := by
  by_cases h1 : cfg.swap_xy <;> by_cases h2 : cfg.invert_x <;>
    by_cases h3 : cfg.invert_y <;>
    simp [ft6x36_read, swapT, invertXT, invertYT, h, hcnt, h1, h2, h3]

/-- Witness for C3: swap on, invert X on, invert Y off, raw decoded
(10, 20), resolution 320x240: the final coordinates are (300, 10). -/
theorem C3_transform_order_witness :
    (⟨1, 0, 10, 0, 20⟩ : Buf5).b0 = 1 ∧
    ((ft6x36_read cfg3 s_rel true ⟨1, 0, 10, 0, 20⟩
        dummyData).data.point_x,
     (ft6x36_read cfg3 s_rel true ⟨1, 0, 10, 0, 20⟩
        dummyData).data.point_y) = ((300 : Int), (10 : Int)) :=
  ⟨rfl,
   (C3_transform_order cfg3 s_rel ⟨1, 0, 10, 0, 20⟩ dummyData rfl
      rfl).trans (by decide)⟩

/-- C4: while initialized, every poll whose bus read fails or whose
touch-point count differs from 1 leaves the stored coordinates
unchanged, returns exactly those sticky coordinates with the Released
state, and behaves identically for every input in that class (bus
error, no touch, multi touch alike). -/
theorem C4_error_branch_sticky (cfg : Ft6x36Config) (s : DriverState)
    (busOk : Bool) (buf : Buf5) (data : LvIndevData)
    (h : s.ft6x36_status.inited = true)
    (he : busOk = false ∨ buf.b0 ≠ 1) :
    ((ft6x36_read cfg s busOk buf data).state.touch_inputs.last_x =
        s.touch_inputs.last_x ∧
      (ft6x36_read cfg s busOk buf data).state.touch_inputs.last_y =
        s.touch_inputs.last_y) ∧
    (ft6x36_read cfg s busOk buf data).data =
      { point_x := s.touch_inputs.last_x,
        point_y := s.touch_inputs.last_y,
        state := LvIndevState.rel } ∧
    (∀ busOk2 buf2, (busOk2 = false ∨ buf2.b0 ≠ 1) →
      ft6x36_read cfg s busOk2 buf2 data =
        ft6x36_read cfg s busOk buf data) := by
  by_cases hrel : s.touch_inputs.current_state = LvIndevState.rel
  · rw [read_error_from_rel cfg s busOk buf data h hrel he]
    refine ⟨⟨rfl, rfl⟩, rfl, fun busOk2 buf2 he2 => ?_⟩
    rw [read_error_from_rel cfg s busOk2 buf2 data h hrel he2]
  · have hpr : s.touch_inputs.current_state = LvIndevState.pr := by
      cases hcs : s.touch_inputs.current_state
      · exact absurd hcs hrel
      · rfl
    rw [read_error_from_pr cfg s busOk buf data h hpr he]
    refine ⟨⟨rfl, rfl⟩, rfl, fun busOk2 buf2 he2 => ?_⟩
    rw [read_error_from_pr cfg s busOk2 buf2 data h hpr he2]

/-- Witness for C4: a bus failure during a press keeps (100, 100) and
reports Released. -/
theorem C4_error_branch_sticky_witness :
    s_pr.ft6x36_status.inited = true ∧
    ((false : Bool) = false ∨ (⟨0, 0, 0, 0, 0⟩ : Buf5).b0 ≠ 1) ∧
    (ft6x36_read cfg0 s_pr false ⟨0, 0, 0, 0, 0⟩ dummyData).data =
      { point_x := 100, point_y := 100, state := LvIndevState.rel } :=
  ⟨rfl, Or.inl rfl,
   ((C4_error_branch_sticky cfg0 s_pr false ⟨0, 0, 0, 0, 0⟩ dummyData rfl
      (Or.inl rfl)).2.1).trans (by decide)⟩

/-- C5: with the queue enabled, the first poll after a press that sees
no valid single touch publishes exactly the Released sample once, and
any run of further such polls publishes nothing. -/
theorem C5_release_edge_publish (cfg : Ft6x36Config) (s : DriverState)
    (busOk : Bool) (buf : Buf5) (data : LvIndevData)
    (hq : cfg.queue_enabled = true)
    (h : s.ft6x36_status.inited = true)
    (hpr : s.touch_inputs.current_state = LvIndevState.pr)
    (he : busOk = false ∨ buf.b0 ≠ 1) :
    (ft6x36_read cfg s busOk buf data).published =
      [{ s.touch_inputs with current_state := LvIndevState.rel }] ∧
    (∀ polls, (∀ p ∈ polls, p.1 = false ∨ p.2.b0 ≠ 1) →
      (runPolls cfg (ft6x36_read cfg s busOk buf data).state
        polls).2 = []) := by
  rw [read_error_from_pr cfg s busOk buf data h hpr he]
  refine ⟨by simp [hq], fun polls hp => ?_⟩
  have h' : ({ s with touch_inputs :=
      { s.touch_inputs with current_state := LvIndevState.rel } } :
      DriverState).ft6x36_status.inited = true := h
  rw [runPolls_error_noop cfg _ polls h' rfl hp]

/-- Witness for C5: one press followed by two invalid polls publishes
the Released sample once and nothing afterwards. -/
theorem C5_release_edge_publish_witness :
    cfg0.queue_enabled = true ∧
    s_pr.ft6x36_status.inited = true ∧
    s_pr.touch_inputs.current_state = LvIndevState.pr ∧
    (ft6x36_read cfg0 s_pr true ⟨0, 0, 0, 0, 0⟩ dummyData).published =
      [{ last_x := 100, last_y := 100,
         current_state := LvIndevState.rel }] ∧
    (runPolls cfg0
      (ft6x36_read cfg0 s_pr true ⟨0, 0, 0, 0, 0⟩ dummyData).state
      [(true, ⟨0, 0, 0, 0, 0⟩), (false, ⟨1, 0, 0, 0, 0⟩)]).2 = [] :=
  ⟨rfl, rfl, rfl,
   (C5_release_edge_publish cfg0 s_pr true ⟨0, 0, 0, 0, 0⟩ dummyData rfl
      rfl rfl (Or.inr (by decide))).1.trans (by decide),
   (C5_release_edge_publish cfg0 s_pr true ⟨0, 0, 0, 0, 0⟩ dummyData rfl
      rfl rfl (Or.inr (by decide))).2
     [(true, ⟨0, 0, 0, 0, 0⟩), (false, ⟨1, 0, 0, 0, 0⟩)] (by decide)⟩

/-- C6: with the queue enabled, every successful single-touch poll
publishes exactly the freshly stored Pressed sample, and a run of N
such polls publishes N times. -/
theorem C6_pressed_level_publish (cfg : Ft6x36Config) (s : DriverState)
    (hq : cfg.queue_enabled = true)
    (h : s.ft6x36_status.inited = true) :
    (∀ buf data, buf.b0 = 1 →
      (ft6x36_read cfg s true buf data).published =
        [(ft6x36_read cfg s true buf data).state.touch_inputs] ∧
      (ft6x36_read cfg s true buf data).state.touch_inputs.current_state
        = LvIndevState.pr) ∧
    (∀ polls, (∀ p ∈ polls, p.1 = true ∧ p.2.b0 = 1) →
      (runPolls cfg s polls).2.length = polls.length) := by
  refine ⟨fun buf data hcnt => ?_,
    fun polls hp => runPolls_pressed_length cfg s polls hq h hp⟩
  have hpub := read_pressed_publish cfg s buf data h hcnt
  exact ⟨hpub.1.trans (if_pos hq), hpub.2⟩

/-- Witness for C6: three consecutive single-touch polls publish three
times. -/
theorem C6_pressed_level_publish_witness :
    cfg0.queue_enabled = true ∧
    s_rel.ft6x36_status.inited = true ∧
    (runPolls cfg0 s_rel
      [(true, ⟨1, 0, 10, 0, 20⟩), (true, ⟨1, 0, 11, 0, 21⟩),
       (true, ⟨1, 0, 12, 0, 22⟩)]).2.length = 3 :=
  ⟨rfl, rfl,
   (C6_pressed_level_publish cfg0 s_rel rfl rfl).2
     [(true, ⟨1, 0, 10, 0, 20⟩), (true, ⟨1, 0, 11, 0, 21⟩),
      (true, ⟨1, 0, 12, 0, 22⟩)] (by decide)⟩

/-- C7: evaluating `ft6x36_get_gesture_id` at the failing input — an
initialized device whose gesture-register read fails while the
uninitialized local buffer happens to hold 0xAB — yields 0xAB, not the
0 promised by the claim and by the function's own doc comment. -/
theorem C7_gesture_failure_returns_buffer :
    ft6x36_get_gesture_id s_pr false 0xAB = 0xAB ∧ (0xAB : Nat) ≠ 0 := by
  decide

/-- C8: polling twice while initialized and released with the same
no-touch bus data is idempotent: the stored state never changes, the
two outputs are identical, and neither call publishes. -/
theorem C8_no_touch_idempotent (cfg : Ft6x36Config) (s : DriverState)
    (buf : Buf5) (data : LvIndevData)
    (h : s.ft6x36_status.inited = true)
    (hrel : s.touch_inputs.current_state = LvIndevState.rel)
    (hcnt : buf.b0 = 0) :
    (ft6x36_read cfg s true buf data).state = s ∧
    ft6x36_read cfg (ft6x36_read cfg s true buf data).state true buf
      data = ft6x36_read cfg s true buf data ∧
    (ft6x36_read cfg s true buf data).published = [] ∧
    (ft6x36_read cfg (ft6x36_read cfg s true buf data).state true buf
      data).published = [] := by
  have he : (true : Bool) = false ∨ buf.b0 ≠ 1 := by
    rw [hcnt]; exact Or.inr (by decide)
  have hr := read_error_from_rel cfg s true buf data h hrel he
  have h1 : (ft6x36_read cfg s true buf data).state = s := by rw [hr]
  refine ⟨h1, by rw [h1], by rw [hr], by rw [h1, hr]⟩

/-- Witness for C8 on a concrete no-touch double poll. -/
theorem C8_no_touch_idempotent_witness :
    s_rel.ft6x36_status.inited = true ∧
    s_rel.touch_inputs.current_state = LvIndevState.rel ∧
    (⟨0, 0, 0, 0, 0⟩ : Buf5).b0 = 0 ∧
    (ft6x36_read cfg0 s_rel true ⟨0, 0, 0, 0, 0⟩ dummyData).state =
      s_rel ∧
    (ft6x36_read cfg0
      (ft6x36_read cfg0 s_rel true ⟨0, 0, 0, 0, 0⟩ dummyData).state
      true ⟨0, 0, 0, 0, 0⟩ dummyData).published = [] :=
  ⟨rfl, rfl, rfl,
   (C8_no_touch_idempotent cfg0 s_rel ⟨0, 0, 0, 0, 0⟩ dummyData rfl rfl
      rfl).1,
   (C8_no_touch_idempotent cfg0 s_rel ⟨0, 0, 0, 0, 0⟩ dummyData rfl rfl
      rfl).2.2.2⟩

/-- C9 as stated is false: initializing with device address 0x1FF
stores 0xFF (the uint16 argument is truncated into the uint8 global),
and initializing while a press is stored seeds the queue with that
stored sample, not with the (-1, -1, Released) sentinel. -/
theorem C9_claim_counterexample :
    (ft6x06_init s_pr 0x1FF [true, true, true, true, true] true
      true).state.current_dev_addr ≠ 0x1FF ∧
    (ft6x06_init s_pr 0x1FF [true, true, true, true, true] true
      true).published ≠ [initialTouchInputs] := by
  decide

/-- C9 (amended): every call to `ft6x06_init` marks the device
initialized and stores the low 8 bits of the given device address; the
diagnostic register-read outcomes never influence the result; with the
queue feature enabled and allocation succeeding it seeds the queue with
the currently stored TouchSample, which equals the (-1, -1, Released)
sentinel at startup. -/
theorem C9_init_effects (s : DriverState) (dev_addr : Nat)
    (diag : List Bool) (queue_enabled allocOk : Bool) :
    (ft6x06_init s dev_addr diag queue_enabled
      allocOk).state.ft6x36_status.inited = true ∧
    (ft6x06_init s dev_addr diag queue_enabled
      allocOk).state.current_dev_addr = dev_addr % 256 ∧
    (∀ diag2, ft6x06_init s dev_addr diag2 queue_enabled allocOk =
      ft6x06_init s dev_addr diag queue_enabled allocOk) ∧
    (queue_enabled = true → allocOk = true →
      (ft6x06_init s dev_addr diag queue_enabled allocOk).published =
        [s.touch_inputs]) ∧
    (s.touch_inputs = initialTouchInputs → queue_enabled = true →
      allocOk = true →
      (ft6x06_init s dev_addr diag queue_enabled allocOk).published =
        [initialTouchInputs]) := by
  by_cases hq : queue_enabled = true <;> by_cases ha : allocOk = true <;>
    refine ⟨?_, ?_, fun diag2 => ?_, fun hq2 ha2 => ?_,
      fun hs hq2 ha2 => ?_⟩ <;>
    simp_all [ft6x06_init]

/-- Witness for C9 from the startup state. -/
theorem C9_init_effects_witness :
    (ft6x06_init s_uninit 0x38 [] true
      true).state.ft6x36_status.inited = true ∧
    (ft6x06_init s_uninit 0x38 [] true true).state.current_dev_addr =
      0x38 % 256 ∧
    (ft6x06_init s_uninit 0x38 [] true true).published =
      [initialTouchInputs] :=
  ⟨(C9_init_effects s_uninit 0x38 [] true true).1,
   (C9_init_effects s_uninit 0x38 [] true true).2.1,
   (C9_init_effects s_uninit 0x38 [] true true).2.2.2.2 rfl rfl rfl⟩

/-- C10: on every initialized call, the output structure mirrors the
stored state exactly: `point.x` equals the stored `last_x`, `point.y`
the stored `last_y`, and the output state the stored `current_state`,
in all branches. -/
theorem C10_output_mirrors_state (cfg : Ft6x36Config) (s : DriverState)
    (busOk : Bool) (buf : Buf5) (data : LvIndevData)
    (h : s.ft6x36_status.inited = true) :
    (ft6x36_read cfg s busOk buf data).data.point_x =
      (ft6x36_read cfg s busOk buf data).state.touch_inputs.last_x ∧
    (ft6x36_read cfg s busOk buf data).data.point_y =
      (ft6x36_read cfg s busOk buf data).state.touch_inputs.last_y ∧
    (ft6x36_read cfg s busOk buf data).data.state =
      (ft6x36_read cfg s busOk buf
        data).state.touch_inputs.current_state := by
  by_cases h2 : busOk = false ∨ buf.b0 ≠ 1
  · by_cases h3 : s.touch_inputs.current_state = LvIndevState.rel
    · rw [read_error_from_rel cfg s busOk buf data h h3 h2]
      exact ⟨rfl, rfl, h3.symm⟩
    · have hpr : s.touch_inputs.current_state = LvIndevState.pr := by
        cases hcs : s.touch_inputs.current_state
        · exact absurd hcs h3
        · rfl
      rw [read_error_from_pr cfg s busOk buf data h hpr h2]
      exact ⟨rfl, rfl, rfl⟩
  · push_neg at h2
    obtain ⟨hb, hcnt⟩ := h2
    have hb' : busOk = true := by
      cases busOk
      · exact absurd rfl hb
      · rfl
    subst hb'
    simp [ft6x36_read, h, hcnt]

/-- Witness for C10 on a concrete pressed poll. -/
theorem C10_output_mirrors_state_witness :
    s_rel.ft6x36_status.inited = true ∧
    (ft6x36_read cfg0 s_rel true ⟨1, 0, 10, 0, 20⟩
      dummyData).data.point_x =
      (ft6x36_read cfg0 s_rel true ⟨1, 0, 10, 0, 20⟩
        dummyData).state.touch_inputs.last_x :=
  ⟨rfl, (C10_output_mirrors_state cfg0 s_rel true ⟨1, 0, 10, 0, 20⟩
    dummyData rfl).1⟩
